import Mathlib

/-!
# httpserver: default-user bootstrap and the pre-auth-key endpoint

A shallow embedding of `src/httpserver/main.go`.

The Go program talks to three kinds of collaborators whose code is not part of
the repository: the control daemon (through the generated gRPC client), the Go
standard library (`encoding/json`, `net/http`, `time`, `log`) and the gRPC
dialer.  Their answers are taken as parameters (`HeadscaleServiceClient`,
`Env`); every call the program makes to them is recorded, in program order, in
a trace of `Event`s, and every write to the `http.ResponseWriter` is recorded
in a `ResponseWriter` value that is threaded through the handler.
-/

namespace Httpserver

/-! ## Constants -/

/-- Source constant `headscaleSocket`. -/
def headscaleSocket : String := "/var/run/headscale/headscale.sock"

/-- Source constant `defaultUser`. -/
def defaultUser : String := "default"

/-- Value of `http.MethodPost`. -/
def MethodPost : String := "POST"

/-- Value of `http.StatusMethodNotAllowed`. -/
def StatusMethodNotAllowed : Nat := 405

/-- Value of `http.StatusBadRequest`. -/
def StatusBadRequest : Nat := 400

/-- Value of `http.StatusInternalServerError`. -/
def StatusInternalServerError : Nat := 500

/-- Value of `http.StatusOK`, the status an `http.ResponseWriter` sends when the
first body write happens without a preceding `WriteHeader`. -/
def StatusOK : Nat := 200

/-! ## Data model -/

/-- A non-nil Go `error`, identified by the text `err.Error()` yields. -/
abbrev GoError := String

/-- Source type `PreAuthKeyRequest` (the decoded HTTP input). -/
structure PreAuthKeyRequest where
  User : String
  Reusable : Bool
  Ephemeral : Bool
  Tags : List String
  Expiry : String
  deriving DecidableEq

/-- Source type `PreAuthKeyResponse` (the HTTP output). -/
structure PreAuthKeyResponse where
  Key : String
  deriving DecidableEq

/-- JSON values, as far as the handler produces them. -/
inductive Json where
  | str (s : String)
  | obj (fields : List (String × Json))

/-- JSON form of a `PreAuthKeyResponse`, following the struct tag
`json:"key"` of its only field. -/
def PreAuthKeyResponse.toJson (resp : PreAuthKeyResponse) : Json :=
  Json.obj [("key", Json.str resp.Key)]

/-- Protobuf message `v1.User`, reduced to the field the program reads. -/
structure User where
  Name : String
  deriving DecidableEq

/-- Generated getter `(*v1.User).GetName`: a nil receiver yields the empty
string. -/
def User.GetName : Option User → String
  | some u => u.Name
  | none => ""

/-- Protobuf message `v1.ListUsersResponse`; `Users` is a slice of pointers. -/
structure ListUsersResponse where
  Users : List (Option User)
  deriving DecidableEq

/-- Generated getter `(*v1.ListUsersResponse).GetUsers`. -/
def ListUsersResponse.GetUsers (resp : ListUsersResponse) : List (Option User) :=
  resp.Users

/-- Protobuf message `v1.CreateUserRequest`. -/
structure CreateUserRequest where
  Name : String
  deriving DecidableEq

/-- Protobuf well-known type `timestamppb.Timestamp`: whole seconds since the
Unix epoch and the nanoseconds within that second. -/
structure Timestamp where
  Seconds : Int
  Nanos : Int
  deriving DecidableEq

/-- Protobuf message `v1.CreatePreAuthKeyRequest`. -/
structure CreatePreAuthKeyRequest where
  User : String
  Reusable : Bool
  Ephemeral : Bool
  AclTags : List String
  Expiration : Timestamp
  deriving DecidableEq

/-- Protobuf message `v1.PreAuthKey`, reduced to the field the program reads. -/
structure PreAuthKey where
  Key : String
  deriving DecidableEq

/-- Generated getter `(*v1.PreAuthKey).GetKey`: a nil receiver yields the
empty string. -/
def PreAuthKey.GetKey : Option PreAuthKey → String
  | some k => k.Key
  | none => ""

/-- Protobuf message `v1.CreatePreAuthKeyResponse`; `PreAuthKey` is a
pointer. -/
structure CreatePreAuthKeyResponse where
  PreAuthKey : Option PreAuthKey
  deriving DecidableEq

/-- Generated getter `(*v1.CreatePreAuthKeyResponse).GetPreAuthKey`. -/
def CreatePreAuthKeyResponse.GetPreAuthKey (resp : CreatePreAuthKeyResponse) :
    Option Httpserver.PreAuthKey :=
  resp.PreAuthKey

/-! ## Time -/

/-- Nanoseconds per second. -/
def nanosPerSecond : Int := 1000000000

/-- A `time.Time`, as nanoseconds since the Unix epoch. -/
abbrev Time := Int

/-- A `time.Duration`, as a signed count of nanoseconds. -/
abbrev Duration := Int

/-- Method `time.Time.Add`. -/
def Time.Add (t : Time) (d : Duration) : Time := t + d

/-- Function `timestamppb.New`: `Seconds` is `t.Unix()` (rounded towards minus
infinity) and `Nanos` is `t.Nanosecond()` (in `[0, 1e9)`). -/
def timestamppb_New (t : Time) : Timestamp :=
  { Seconds := Int.fdiv t nanosPerSecond, Nanos := Int.fmod t nanosPerSecond }

/-- The instant a `Timestamp` denotes, in nanoseconds since the Unix epoch. -/
def Timestamp.toNanos (ts : Timestamp) : Int :=
  ts.Seconds * nanosPerSecond + ts.Nanos

/-! ## Effects -/

/-- Calls the program makes to its collaborators, in program order. -/
inductive Event where
  | listUsers
  | createUser (req : CreateUserRequest)
  | decodeBody
  | dial (target : String) (opened : Bool)
  | connClose
  | parseDuration (s : String)
  | clockNow
  | createPreAuthKey (req : CreatePreAuthKeyRequest)
  | log (line : String)
  deriving DecidableEq

/-- Whether an event is a `CreateUser` RPC. -/
def Event.isCreateUser : Event → Bool
  | Event.createUser _ => true
  | _ => false

/-- Whether an event is a `CreatePreAuthKey` RPC. -/
def Event.isCreatePreAuthKey : Event → Bool
  | Event.createPreAuthKey _ => true
  | _ => false

/-- Whether an event is an RPC to the control daemon. -/
def Event.isRPC : Event → Bool
  | Event.listUsers => true
  | Event.createUser _ => true
  | Event.createPreAuthKey _ => true
  | _ => false

/-- Whether an event is a line written by the `log` package. -/
def Event.isLog : Event → Bool
  | Event.log _ => true
  | _ => false

/-- Whether an event is a `grpc.Dial` that opened a connection. -/
def Event.isOpen : Event → Bool
  | Event.dial _ true => true
  | _ => false

/-- Number of connections held after a trace, starting from `held`: a `dial`
that opened acquires one, `connClose` releases one. -/
def connectionsHeld (held : Int) : List Event → Int
  | [] => held
  | Event.dial _ true :: rest => connectionsHeld (held + 1) rest
  | Event.connClose :: rest => connectionsHeld (held - 1) rest
  | _ :: rest => connectionsHeld held rest

/-! ## User bootstrap -/

/-- The part of `v1.HeadscaleServiceClient` that `createDefaultUser` uses:
the daemon's answer to `ListUsers` and to `CreateUser`. -/
structure HeadscaleServiceClient where
  ListUsers : Except GoError ListUsersResponse
  CreateUser : CreateUserRequest → Except GoError Unit

/-- The loop of `createDefaultUser`: `userExists` starts `false` and becomes
`true` at the first entry whose name equals `defaultUser`, where the loop
breaks. -/
def userExists : List (Option User) → Bool
  | [] => false
  | user :: rest => if User.GetName user = defaultUser then true else userExists rest

/-- What a run of `createDefaultUser` leaves behind: the calls it made and the
`error` it returned (`none` is Go's `nil`). -/
structure BootstrapOutcome where
  trace : List Event
  err : Option GoError
  deriving DecidableEq

/-- Source function `createDefaultUser`. -/
def createDefaultUser (client : HeadscaleServiceClient) : BootstrapOutcome :=
  match client.ListUsers with
  | Except.error err => { trace := [Event.listUsers], err := some err }
  | Except.ok listResp =>
    if !userExists listResp.GetUsers then
      let createReq : CreateUserRequest := { Name := defaultUser }
      match client.CreateUser createReq with
      | Except.error err =>
        { trace := [Event.listUsers, Event.createUser createReq], err := some err }
      | Except.ok _ =>
        { trace := [Event.listUsers, Event.createUser createReq,
                    Event.log ("Created default user: " ++ defaultUser)],
          err := none }
    else
      { trace := [Event.listUsers,
                  Event.log ("Default user " ++ defaultUser ++ " already exists")],
        err := none }

/-! ## HTTP endpoint -/

/-- The part of `http.Request` the handler reads. -/
structure Request where
  Method : String
  Body : String
  deriving DecidableEq

/-- One write to the response body. -/
inductive Chunk where
  | line (text : String)
  | json (v : Json)

/-- State of an `http.ResponseWriter`: the header map, the status line once it
has been sent, and the body writes so far. -/
structure ResponseWriter where
  header : List (String × String)
  status : Option Nat
  body : List Chunk

/-- The writer a handler receives: nothing set, nothing sent. -/
def ResponseWriter.fresh : ResponseWriter :=
  { header := [], status := none, body := [] }

/-- Method `http.Header.Set`: replaces whatever the key held. -/
def ResponseWriter.SetHeader (w : ResponseWriter) (key value : String) : ResponseWriter :=
  { w with header := (key, value) :: w.header.filter (fun kv => kv.1 != key) }

/-- Method `http.Header.Get`. -/
def ResponseWriter.GetHeader (w : ResponseWriter) (key : String) : Option String :=
  (w.header.find? (fun kv => kv.1 == key)).map Prod.snd

/-- Method `http.ResponseWriter.WriteHeader`: only the first call takes
effect. -/
def ResponseWriter.WriteHeader (w : ResponseWriter) (code : Nat) : ResponseWriter :=
  match w.status with
  | some _ => w
  | none => { w with status := some code }

/-- Method `http.ResponseWriter.Write`: sends `200 OK` first when no status has
been sent yet. -/
def ResponseWriter.Write (w : ResponseWriter) (c : Chunk) : ResponseWriter :=
  let w1 := w.WriteHeader StatusOK
  { w1 with body := w1.body ++ [c] }

/-- Function `http.Error`: plain-text content type, the given status, and the
message written as one line of text. -/
def http_Error (w : ResponseWriter) (error : String) (code : Nat) : ResponseWriter :=
  let w1 := w.SetHeader "Content-Type" "text/plain; charset=utf-8"
  let w2 := w1.SetHeader "X-Content-Type-Options" "nosniff"
  let w3 := w2.WriteHeader code
  w3.Write (Chunk.line error)

/-- What the handler asks of its surroundings for one request: the outcome of
`json.NewDecoder(r.Body).Decode`, of `grpc.Dial`, of `time.ParseDuration`, the
reading of `time.Now()`, and the outcome of the `CreatePreAuthKey` call.

The handler calls `grpc.Dial` without `grpc.WithBlock()`, so the call returns a
connection handle without waiting for the socket; a daemon that cannot be
reached shows in the error of the RPC made on the handle, not in `dial`. -/
structure Env where
  decode : String → Except GoError PreAuthKeyRequest
  dial : String → Except GoError Unit
  parseDuration : String → Except GoError Duration
  now : Time
  createPreAuthKey : CreatePreAuthKeyRequest → Except GoError CreatePreAuthKeyResponse

/-- What a run of the handler leaves behind: the response writer and the
calls it made. -/
structure Outcome where
  w : ResponseWriter
  trace : List Event

/-- The `v1.CreatePreAuthKeyRequest` the handler builds from the decoded body,
the clock reading and the parsed expiry. -/
def buildRequest (req : PreAuthKeyRequest) (now : Time) (expiry : Duration) :
    CreatePreAuthKeyRequest :=
  { User := req.User
    Reusable := req.Reusable
    Ephemeral := req.Ephemeral
    AclTags := req.Tags
    Expiration := timestamppb_New (Time.Add now expiry) }

/-- The body of `createPreAuthKey` after `defer conn.Close()` has been
registered, up to the point where the function returns. -/
def withConnection (env : Env) (w : ResponseWriter) (req : PreAuthKeyRequest) : Outcome :=
  match env.parseDuration req.Expiry with
  | Except.error _ =>
    { w := http_Error w "Invalid expiry duration" StatusBadRequest
      trace := [Event.parseDuration req.Expiry] }
  | Except.ok expiry =>
    let request := buildRequest req env.now expiry
    match env.createPreAuthKey request with
    | Except.error err =>
      { w := http_Error w "Failed to create preauth key" StatusInternalServerError
        trace := [Event.parseDuration req.Expiry, Event.clockNow,
                  Event.createPreAuthKey request,
                  Event.log ("Failed to create preauth key: " ++ err)] }
    | Except.ok response =>
      let resp : PreAuthKeyResponse := { Key := PreAuthKey.GetKey response.GetPreAuthKey }
      let w1 := w.SetHeader "Content-Type" "application/json"
      { w := w1.Write (Chunk.json resp.toJson)
        trace := [Event.parseDuration req.Expiry, Event.clockNow,
                  Event.createPreAuthKey request] }

/-- Source function `createPreAuthKey`. -/
def createPreAuthKey (env : Env) (w : ResponseWriter) (r : Request) : Outcome :=
  if r.Method ≠ MethodPost then
    { w := http_Error w "Method not allowed" StatusMethodNotAllowed, trace := [] }
  else
    match env.decode r.Body with
    | Except.error _ =>
      { w := http_Error w "Invalid request body" StatusBadRequest
        trace := [Event.decodeBody] }
    | Except.ok req =>
      match env.dial ("unix://" ++ headscaleSocket) with
      | Except.error _ =>
        { w := http_Error w "Failed to connect to headscale" StatusInternalServerError
          trace := [Event.decodeBody, Event.dial ("unix://" ++ headscaleSocket) false] }
      | Except.ok _ =>
        let out := withConnection env w req
        { w := out.w
          trace := [Event.decodeBody, Event.dial ("unix://" ++ headscaleSocket) true]
                    ++ out.trace ++ [Event.connClose] }

/-! ## Test doubles

Concrete collaborators for the scenarios of the specification. -/

/-- A daemon that already knows `default` and `alice`; any `CreateUser` would
fail. -/
def clientWithDefault : HeadscaleServiceClient :=
  { ListUsers := Except.ok { Users := [some { Name := "default" }, some { Name := "alice" }] }
    CreateUser := fun _ => Except.error "rpc error: code = AlreadyExists" }

/-- A daemon that knows only a user called `Default`; `CreateUser` succeeds. -/
def clientWithoutDefault : HeadscaleServiceClient :=
  { ListUsers := Except.ok { Users := [some { Name := "Default" }] }
    CreateUser := fun _ => Except.ok () }

/-- A daemon with no users at all whose `CreateUser` fails. -/
def clientEmptyFailing : HeadscaleServiceClient :=
  { ListUsers := Except.ok { Users := [] }
    CreateUser := fun _ => Except.error "rpc error: code = Unavailable" }

/-- Request body of the happy-path scenario. -/
def bodyOneHour : String :=
  "\x7b\"user\":\"default\",\"reusable\":false,\"ephemeral\":false,\"tags\":[\"tag:ci\"],\"expiry\":\"1h\"\x7d"

/-- Request body asking for a key that expired an hour ago. -/
def bodyMinusOneHour : String :=
  "\x7b\"user\":\"default\",\"reusable\":true,\"ephemeral\":false,\"tags\":[\"tag:ci\"],\"expiry\":\"-1h\"\x7d"

/-- Request body of the bad-duration scenario. -/
def bodyForever : String :=
  "\x7b\"user\":\"default\",\"reusable\":false,\"ephemeral\":false,\"tags\":[],\"expiry\":\"forever\"\x7d"

/-- Surroundings for the scenarios: the decoder knows the three bodies above and
rejects everything else, the dialer connects, the duration table knows `1h`,
`-1h` and `0`, the clock reads 1700000000.123456789 s, and the daemon answers
every `CreatePreAuthKey` with the key `abc123`. -/
def scenarioEnv : Env :=
  { decode := fun body =>
      if body = bodyOneHour then
        Except.ok { User := "default", Reusable := false, Ephemeral := false,
                    Tags := ["tag:ci"], Expiry := "1h" }
      else if body = bodyMinusOneHour then
        Except.ok { User := "default", Reusable := true, Ephemeral := false,
                    Tags := ["tag:ci"], Expiry := "-1h" }
      else if body = bodyForever then
        Except.ok { User := "default", Reusable := false, Ephemeral := false,
                    Tags := [], Expiry := "forever" }
      else Except.error "invalid character in request body"
    dial := fun _ => Except.ok ()
    parseDuration := fun s =>
      if s = "1h" then Except.ok 3600000000000
      else if s = "-1h" then Except.ok (-3600000000000)
      else if s = "0" then Except.ok 0
      else Except.error ("time: invalid duration " ++ s)
    now := 1700000000123456789
    createPreAuthKey := fun _ => Except.ok { PreAuthKey := some { Key := "abc123" } } }

/-- The scenario surroundings with a daemon that fails every
`CreatePreAuthKey`. -/
def failingBackendEnv : Env :=
  { scenarioEnv with
    createPreAuthKey := fun _ => Except.error "rpc error: code = Internal desc = database is locked" }

/-- The scenario surroundings with no daemon listening on the socket: the
dial returns a handle all the same, and every RPC on it fails with the
transport error. -/
def unreachableBackendEnv : Env :=
  { scenarioEnv with
    createPreAuthKey := fun _ => Except.error
      "rpc error: code = Unavailable desc = connection error: dial unix /var/run/headscale/headscale.sock: connect: no such file or directory" }

/-! ## Lemmas on the bootstrap loop -/

theorem userExists_eq_true_iff (users : List (Option User)) :
    userExists users = true ↔ ∃ u ∈ users, User.GetName u = defaultUser := by
  induction users with
  | nil => simp [userExists]
  | cons user rest ih =>
    by_cases h : User.GetName user = defaultUser
    · simp [userExists, h]
    · simp [userExists, h, ih]

theorem userExists_eq_false_iff (users : List (Option User)) :
    userExists users = false ↔ ∀ u ∈ users, User.GetName u ≠ defaultUser := by
  induction users with
  | nil => simp [userExists]
  | cons user rest ih =>
    by_cases h : User.GetName user = defaultUser
    · simp [userExists, h]
    · simp [userExists, h, ih]

/-! ## User bootstrap: theorems -/

/-- C1: when the list `ListUsers` returns holds, at any position, an entry whose
name is exactly "default", `createDefaultUser` issues no `CreateUser` call and
returns nil. -/
theorem createDefaultUser_idempotent (client : HeadscaleServiceClient)
    (listResp : ListUsersResponse)
    (hlist : client.ListUsers = Except.ok listResp)
    (hmem : ∃ u ∈ listResp.GetUsers, User.GetName u = "default") :
    (createDefaultUser client).trace.filter Event.isCreateUser = [] ∧
      (createDefaultUser client).err = none := by
  have hex : userExists listResp.GetUsers = true :=
    (userExists_eq_true_iff _).mpr hmem
  simp [createDefaultUser, hlist, hex, Event.isCreateUser]

theorem createDefaultUser_idempotent_witness :
    (createDefaultUser clientWithDefault).trace.filter Event.isCreateUser = [] ∧
      (createDefaultUser clientWithDefault).err = none :=
  createDefaultUser_idempotent clientWithDefault
    { Users := [some { Name := "default" }, some { Name := "alice" }] } rfl
    ⟨some { Name := "default" }, List.mem_cons_self _ _, rfl⟩

/-- C2: when `ListUsers` succeeds with a list holding no entry whose name equals
"default" (compared exactly), `createDefaultUser` calls `ListUsers` first and
`CreateUser` with name "default" second, makes no further `CreateUser` call,
returns nil exactly when that `CreateUser` call succeeds, and returns the error
of `CreateUser` when it fails. -/
theorem createDefaultUser_creates_when_absent (client : HeadscaleServiceClient)
    (listResp : ListUsersResponse)
    (hlist : client.ListUsers = Except.ok listResp)
    (habs : ∀ u ∈ listResp.GetUsers, User.GetName u ≠ "default") :
    (createDefaultUser client).trace.filter Event.isCreateUser
        = [Event.createUser { Name := "default" }] ∧
      (∃ rest, (createDefaultUser client).trace
        = Event.listUsers :: Event.createUser { Name := "default" } :: rest) ∧
      ((createDefaultUser client).err = none ↔
        client.CreateUser { Name := "default" } = Except.ok ()) ∧
      (∀ e, client.CreateUser { Name := "default" } = Except.error e →
        (createDefaultUser client).err = some e) := by
  have hex : userExists listResp.GetUsers = false :=
    (userExists_eq_false_iff _).mpr habs
  cases hcreate : client.CreateUser { Name := "default" } with
  | error e => simp [createDefaultUser, hlist, hex, defaultUser, hcreate, Event.isCreateUser]
  | ok u => simp [createDefaultUser, hlist, hex, defaultUser, hcreate, Event.isCreateUser]

theorem createDefaultUser_creates_when_absent_witness :
    (createDefaultUser clientWithoutDefault).trace.filter Event.isCreateUser
        = [Event.createUser { Name := "default" }] ∧
      (∃ rest, (createDefaultUser clientWithoutDefault).trace
        = Event.listUsers :: Event.createUser { Name := "default" } :: rest) ∧
      ((createDefaultUser clientWithoutDefault).err = none ↔
        clientWithoutDefault.CreateUser { Name := "default" } = Except.ok ()) ∧
      (∀ e, clientWithoutDefault.CreateUser { Name := "default" } = Except.error e →
        (createDefaultUser clientWithoutDefault).err = some e) :=
  createDefaultUser_creates_when_absent clientWithoutDefault
    { Users := [some { Name := "Default" }] } rfl (by decide)

/-- Bootstrap against a daemon with no users whose `CreateUser` fails: one
`ListUsers`, one `CreateUser` for "default", and the error of `CreateUser` is
returned. -/
theorem createDefaultUser_empty_failing :
    createDefaultUser clientEmptyFailing
      = { trace := [Event.listUsers, Event.createUser { Name := "default" }],
          err := some "rpc error: code = Unavailable" } := by
  rfl

/-! ## Lemmas on timestamps -/

theorem timestamppb_New_toNanos (t : Time) : (timestamppb_New t).toNanos = t := by
  unfold Timestamp.toNanos timestamppb_New
  simp only
  rw [mul_comm]
  exact Int.fdiv_add_fmod t nanosPerSecond

theorem timestamppb_New_nanos_range (t : Time) :
    0 ≤ (timestamppb_New t).Nanos ∧ (timestamppb_New t).Nanos < 1000000000 := by
  unfold timestamppb_New
  simp only
  have hpos : (0 : Int) < nanosPerSecond := by decide
  have hmod : Int.fmod t nanosPerSecond = t % nanosPerSecond :=
    Int.fmod_eq_emod t (Int.le_of_lt hpos)
  refine ⟨?_, Int.fmod_lt_of_pos t hpos⟩
  rw [hmod]
  exact Int.emod_nonneg t (Int.ne_of_gt hpos)

/-! ## HTTP endpoint: theorems -/

/-- C3: for a POST request whose body decodes to `req`, whose backend connection
opens and whose expiry parses to the duration `d` (of any sign), the handler
reads the clock once and issues one `CreatePreAuthKey` RPC whose fields are
`User = req.User`, `Reusable = req.Reusable`, `Ephemeral = req.Ephemeral`,
`AclTags = req.Tags` and an `Expiration` that denotes the instant `now + d`. -/
theorem createPreAuthKey_rpc_fields (env : Env) (r : Request) (req : PreAuthKeyRequest)
    (d : Duration)
    (hmethod : r.Method = "POST")
    (hdecode : env.decode r.Body = Except.ok req)
    (hdial : env.dial ("unix://" ++ headscaleSocket) = Except.ok ())
    (hparse : env.parseDuration req.Expiry = Except.ok d) :
    ∃ rpc : CreatePreAuthKeyRequest,
      (createPreAuthKey env ResponseWriter.fresh r).trace.filter Event.isCreatePreAuthKey
          = [Event.createPreAuthKey rpc] ∧
        rpc.User = req.User ∧ rpc.Reusable = req.Reusable ∧
        rpc.Ephemeral = req.Ephemeral ∧ rpc.AclTags = req.Tags ∧
        rpc.Expiration.toNanos = env.now + d ∧
        0 ≤ rpc.Expiration.Nanos ∧ rpc.Expiration.Nanos < 1000000000 ∧
        (createPreAuthKey env ResponseWriter.fresh r).trace.count Event.clockNow = 1 := by
  refine ⟨buildRequest req env.now d, ?_, rfl, rfl, rfl, rfl, ?_, ?_, ?_, ?_⟩
  · cases hrpc : env.createPreAuthKey (buildRequest req env.now d) <;>
      simp [createPreAuthKey, withConnection, MethodPost, hmethod, hdecode, hdial, hparse,
        hrpc, Event.isCreatePreAuthKey]
  · exact timestamppb_New_toNanos (Time.Add env.now d)
  · exact (timestamppb_New_nanos_range (Time.Add env.now d)).1
  · exact (timestamppb_New_nanos_range (Time.Add env.now d)).2
  · cases hrpc : env.createPreAuthKey (buildRequest req env.now d) <;>
      simp [createPreAuthKey, withConnection, MethodPost, hmethod, hdecode, hdial, hparse,
        hrpc]

theorem createPreAuthKey_rpc_fields_witness :
    ∃ rpc : CreatePreAuthKeyRequest,
      (createPreAuthKey scenarioEnv ResponseWriter.fresh
          { Method := "POST", Body := bodyMinusOneHour }).trace.filter Event.isCreatePreAuthKey
          = [Event.createPreAuthKey rpc] ∧
        rpc.User = "default" ∧ rpc.Reusable = true ∧
        rpc.Ephemeral = false ∧ rpc.AclTags = ["tag:ci"] ∧
        rpc.Expiration.toNanos = scenarioEnv.now + (-3600000000000) ∧
        0 ≤ rpc.Expiration.Nanos ∧ rpc.Expiration.Nanos < 1000000000 ∧
        (createPreAuthKey scenarioEnv ResponseWriter.fresh
          { Method := "POST", Body := bodyMinusOneHour }).trace.count Event.clockNow = 1 :=
  createPreAuthKey_rpc_fields scenarioEnv { Method := "POST", Body := bodyMinusOneHour }
    { User := "default", Reusable := true, Ephemeral := false, Tags := ["tag:ci"],
      Expiry := "-1h" }
    (-3600000000000) rfl rfl rfl rfl

/-- The whole run for an expiry of minus one hour: the RPC carries the instant
one hour before the clock reading, 1699996400.123456789 s. -/
theorem createPreAuthKey_minus_one_hour_trace :
    (createPreAuthKey scenarioEnv ResponseWriter.fresh
        { Method := "POST", Body := bodyMinusOneHour }).trace
      = [Event.decodeBody, Event.dial "unix:///var/run/headscale/headscale.sock" true,
         Event.parseDuration "-1h", Event.clockNow,
         Event.createPreAuthKey
           { User := "default", Reusable := true, Ephemeral := false, AclTags := ["tag:ci"],
             Expiration := { Seconds := 1699996400, Nanos := 123456789 } },
         Event.connClose] := by
  rfl

/-- C4: when the `CreatePreAuthKey` RPC succeeds, the response has status 200,
header `Content-Type: application/json`, and a body that is the one JSON object
with the single member `key` holding the key string of the backend response. -/
theorem createPreAuthKey_success_response (env : Env) (r : Request)
    (req : PreAuthKeyRequest) (d : Duration) (response : CreatePreAuthKeyResponse)
    (hmethod : r.Method = "POST")
    (hdecode : env.decode r.Body = Except.ok req)
    (hdial : env.dial ("unix://" ++ headscaleSocket) = Except.ok ())
    (hparse : env.parseDuration req.Expiry = Except.ok d)
    (hrpc : env.createPreAuthKey (buildRequest req env.now d) = Except.ok response) :
    (createPreAuthKey env ResponseWriter.fresh r).w.status = some 200 ∧
      (createPreAuthKey env ResponseWriter.fresh r).w.GetHeader "Content-Type"
        = some "application/json" ∧
      (createPreAuthKey env ResponseWriter.fresh r).w.body
        = [Chunk.json (Json.obj [("key", Json.str (PreAuthKey.GetKey response.GetPreAuthKey))])] := by
  simp [createPreAuthKey, withConnection, MethodPost, hmethod, hdecode, hdial, hparse, hrpc,
    ResponseWriter.Write, ResponseWriter.WriteHeader, ResponseWriter.SetHeader,
    ResponseWriter.GetHeader, ResponseWriter.fresh, StatusOK, PreAuthKeyResponse.toJson]

theorem createPreAuthKey_success_response_witness :
    (createPreAuthKey scenarioEnv ResponseWriter.fresh
        { Method := "POST", Body := bodyOneHour }).w.status = some 200 ∧
      (createPreAuthKey scenarioEnv ResponseWriter.fresh
        { Method := "POST", Body := bodyOneHour }).w.GetHeader "Content-Type"
        = some "application/json" ∧
      (createPreAuthKey scenarioEnv ResponseWriter.fresh
        { Method := "POST", Body := bodyOneHour }).w.body
        = [Chunk.json (Json.obj [("key", Json.str "abc123")])] :=
  createPreAuthKey_success_response scenarioEnv { Method := "POST", Body := bodyOneHour }
    { User := "default", Reusable := false, Ephemeral := false, Tags := ["tag:ci"],
      Expiry := "1h" }
    3600000000000 { PreAuthKey := some { Key := "abc123" } } rfl rfl rfl rfl rfl

/-- C5: for a request whose method is not POST, whatever its body, the response
has status 405 and the handler makes no call at all: it does not decode the
body, open a connection or issue an RPC. -/
theorem createPreAuthKey_method_not_allowed (env : Env) (r : Request)
    (hmethod : r.Method ≠ "POST") :
    (createPreAuthKey env ResponseWriter.fresh r).w.status = some 405 ∧
      (createPreAuthKey env ResponseWriter.fresh r).w.body = [Chunk.line "Method not allowed"] ∧
      (createPreAuthKey env ResponseWriter.fresh r).trace = [] := by
  simp [createPreAuthKey, MethodPost, hmethod, http_Error, ResponseWriter.Write,
    ResponseWriter.WriteHeader, ResponseWriter.SetHeader, ResponseWriter.fresh,
    StatusMethodNotAllowed]

theorem createPreAuthKey_method_not_allowed_witness :
    (createPreAuthKey scenarioEnv ResponseWriter.fresh
        { Method := "GET", Body := bodyOneHour }).w.status = some 405 ∧
      (createPreAuthKey scenarioEnv ResponseWriter.fresh
        { Method := "GET", Body := bodyOneHour }).w.body = [Chunk.line "Method not allowed"] ∧
      (createPreAuthKey scenarioEnv ResponseWriter.fresh
        { Method := "GET", Body := bodyOneHour }).trace = [] :=
  createPreAuthKey_method_not_allowed scenarioEnv { Method := "GET", Body := bodyOneHour }
    (by decide)

/-- C6: for a POST request whose body decodes, whose backend connection opens and
whose expiry string does not parse as a duration, the response has status 400
and the body "Invalid expiry duration", and no RPC is issued. -/
theorem createPreAuthKey_invalid_expiry (env : Env) (r : Request)
    (req : PreAuthKeyRequest) (err : GoError)
    (hmethod : r.Method = "POST")
    (hdecode : env.decode r.Body = Except.ok req)
    (hdial : env.dial ("unix://" ++ headscaleSocket) = Except.ok ())
    (hparse : env.parseDuration req.Expiry = Except.error err) :
    (createPreAuthKey env ResponseWriter.fresh r).w.status = some 400 ∧
      (createPreAuthKey env ResponseWriter.fresh r).w.body
        = [Chunk.line "Invalid expiry duration"] ∧
      (createPreAuthKey env ResponseWriter.fresh r).trace.filter Event.isRPC = [] := by
  simp [createPreAuthKey, withConnection, MethodPost, hmethod, hdecode, hdial, hparse,
    http_Error, ResponseWriter.Write, ResponseWriter.WriteHeader, ResponseWriter.SetHeader,
    ResponseWriter.fresh, StatusBadRequest, Event.isRPC]

theorem createPreAuthKey_invalid_expiry_witness :
    (createPreAuthKey scenarioEnv ResponseWriter.fresh
        { Method := "POST", Body := bodyForever }).w.status = some 400 ∧
      (createPreAuthKey scenarioEnv ResponseWriter.fresh
        { Method := "POST", Body := bodyForever }).w.body
        = [Chunk.line "Invalid expiry duration"] ∧
      (createPreAuthKey scenarioEnv ResponseWriter.fresh
        { Method := "POST", Body := bodyForever }).trace.filter Event.isRPC = [] :=
  createPreAuthKey_invalid_expiry scenarioEnv { Method := "POST", Body := bodyForever }
    { User := "default", Reusable := false, Ephemeral := false, Tags := [],
      Expiry := "forever" }
    "time: invalid duration forever" rfl rfl rfl rfl

/-- C7: for a POST request whose body fails to decode, the response has status
400 and the body "Invalid request body"; decoding is the only call the handler
makes, so no connection is opened and no RPC is issued. -/
theorem createPreAuthKey_invalid_body (env : Env) (r : Request) (err : GoError)
    (hmethod : r.Method = "POST")
    (hdecode : env.decode r.Body = Except.error err) :
    (createPreAuthKey env ResponseWriter.fresh r).w.status = some 400 ∧
      (createPreAuthKey env ResponseWriter.fresh r).w.body
        = [Chunk.line "Invalid request body"] ∧
      (createPreAuthKey env ResponseWriter.fresh r).trace = [Event.decodeBody] := by
  simp [createPreAuthKey, MethodPost, hmethod, hdecode, http_Error, ResponseWriter.Write,
    ResponseWriter.WriteHeader, ResponseWriter.SetHeader, ResponseWriter.fresh,
    StatusBadRequest]

theorem createPreAuthKey_invalid_body_witness :
    (createPreAuthKey scenarioEnv ResponseWriter.fresh
        { Method := "POST", Body := "not-json" }).w.status = some 400 ∧
      (createPreAuthKey scenarioEnv ResponseWriter.fresh
        { Method := "POST", Body := "not-json" }).w.body
        = [Chunk.line "Invalid request body"] ∧
      (createPreAuthKey scenarioEnv ResponseWriter.fresh
        { Method := "POST", Body := "not-json" }).trace = [Event.decodeBody] :=
  createPreAuthKey_invalid_body scenarioEnv { Method := "POST", Body := "not-json" }
    "invalid character in request body" rfl rfl

/-- C8: when the `CreatePreAuthKey` RPC returns an error, the response has status
500 and the body "Failed to create preauth key", and the handler writes one log
line, which carries the error; the response written (status, headers, body) is
the same for any two runs that end in a backend error, whatever the errors. -/
theorem createPreAuthKey_backend_error (env1 env2 : Env) (r1 r2 : Request)
    (req1 req2 : PreAuthKeyRequest) (d1 d2 : Duration) (err1 err2 : GoError)
    (hmethod1 : r1.Method = "POST")
    (hdecode1 : env1.decode r1.Body = Except.ok req1)
    (hdial1 : env1.dial ("unix://" ++ headscaleSocket) = Except.ok ())
    (hparse1 : env1.parseDuration req1.Expiry = Except.ok d1)
    (hrpc1 : env1.createPreAuthKey (buildRequest req1 env1.now d1) = Except.error err1)
    (hmethod2 : r2.Method = "POST")
    (hdecode2 : env2.decode r2.Body = Except.ok req2)
    (hdial2 : env2.dial ("unix://" ++ headscaleSocket) = Except.ok ())
    (hparse2 : env2.parseDuration req2.Expiry = Except.ok d2)
    (hrpc2 : env2.createPreAuthKey (buildRequest req2 env2.now d2) = Except.error err2) :
    (createPreAuthKey env1 ResponseWriter.fresh r1).w.status = some 500 ∧
      (createPreAuthKey env1 ResponseWriter.fresh r1).w.body
        = [Chunk.line "Failed to create preauth key"] ∧
      (createPreAuthKey env1 ResponseWriter.fresh r1).trace.filter Event.isLog
        = [Event.log ("Failed to create preauth key: " ++ err1)] ∧
      (createPreAuthKey env1 ResponseWriter.fresh r1).w
        = (createPreAuthKey env2 ResponseWriter.fresh r2).w := by
  simp [createPreAuthKey, withConnection, MethodPost, hmethod1, hdecode1, hdial1, hparse1,
    hrpc1, hmethod2, hdecode2, hdial2, hparse2, hrpc2, http_Error, ResponseWriter.Write,
    ResponseWriter.WriteHeader, ResponseWriter.SetHeader, ResponseWriter.fresh,
    StatusInternalServerError, Event.isLog]

theorem createPreAuthKey_backend_error_witness :
    (createPreAuthKey failingBackendEnv ResponseWriter.fresh
        { Method := "POST", Body := bodyOneHour }).w.status = some 500 ∧
      (createPreAuthKey failingBackendEnv ResponseWriter.fresh
        { Method := "POST", Body := bodyOneHour }).w.body
        = [Chunk.line "Failed to create preauth key"] ∧
      (createPreAuthKey failingBackendEnv ResponseWriter.fresh
        { Method := "POST", Body := bodyOneHour }).trace.filter Event.isLog
        = [Event.log ("Failed to create preauth key: "
            ++ "rpc error: code = Internal desc = database is locked")] ∧
      (createPreAuthKey failingBackendEnv ResponseWriter.fresh
        { Method := "POST", Body := bodyOneHour }).w
        = (createPreAuthKey
            { scenarioEnv with createPreAuthKey := fun _ => Except.error "context canceled" }
            ResponseWriter.fresh { Method := "POST", Body := bodyMinusOneHour }).w :=
  createPreAuthKey_backend_error failingBackendEnv
    { scenarioEnv with createPreAuthKey := fun _ => Except.error "context canceled" }
    { Method := "POST", Body := bodyOneHour } { Method := "POST", Body := bodyMinusOneHour }
    { User := "default", Reusable := false, Ephemeral := false, Tags := ["tag:ci"],
      Expiry := "1h" }
    { User := "default", Reusable := true, Ephemeral := false, Tags := ["tag:ci"],
      Expiry := "-1h" }
    3600000000000 (-3600000000000)
    "rpc error: code = Internal desc = database is locked" "context canceled"
    rfl rfl rfl rfl rfl rfl rfl rfl rfl rfl

/-- C9, as amended: for a POST request whose body decodes, with a dial that
returns a handle and a backend that cannot be reached, so that the RPC fails
with `err`: when the expiry parses, the handler issues the one
`CreatePreAuthKey` RPC, writes one log line carrying `err` and answers with
status 500 and the body "Failed to create preauth key"; when the expiry does
not parse, it answers with status 400 and the body "Invalid expiry duration",
issues no RPC and writes no log line. -/
theorem createPreAuthKey_unreachable_backend (env : Env) (r : Request)
    (req : PreAuthKeyRequest) (err : GoError)
    (hmethod : r.Method = "POST")
    (hdecode : env.decode r.Body = Except.ok req)
    (hdial : env.dial ("unix://" ++ headscaleSocket) = Except.ok ())
    (hrpc : ∀ request, env.createPreAuthKey request = Except.error err) :
    (∀ d, env.parseDuration req.Expiry = Except.ok d →
        (createPreAuthKey env ResponseWriter.fresh r).w.status = some 500 ∧
        (createPreAuthKey env ResponseWriter.fresh r).w.body
          = [Chunk.line "Failed to create preauth key"] ∧
        (createPreAuthKey env ResponseWriter.fresh r).trace.filter Event.isLog
          = [Event.log ("Failed to create preauth key: " ++ err)] ∧
        (createPreAuthKey env ResponseWriter.fresh r).trace.filter Event.isRPC
          = [Event.createPreAuthKey (buildRequest req env.now d)]) ∧
      (∀ e, env.parseDuration req.Expiry = Except.error e →
        (createPreAuthKey env ResponseWriter.fresh r).w.status = some 400 ∧
        (createPreAuthKey env ResponseWriter.fresh r).w.body
          = [Chunk.line "Invalid expiry duration"] ∧
        (createPreAuthKey env ResponseWriter.fresh r).trace.filter Event.isLog = [] ∧
        (createPreAuthKey env ResponseWriter.fresh r).trace.filter Event.isRPC = []) := by
  constructor
  · intro d hparse
    simp [createPreAuthKey, withConnection, MethodPost, hmethod, hdecode, hdial, hparse,
      hrpc, http_Error, ResponseWriter.Write, ResponseWriter.WriteHeader,
      ResponseWriter.SetHeader, ResponseWriter.fresh, StatusInternalServerError,
      Event.isLog, Event.isRPC]
  · intro e hparse
    simp [createPreAuthKey, withConnection, MethodPost, hmethod, hdecode, hdial, hparse,
      http_Error, ResponseWriter.Write, ResponseWriter.WriteHeader,
      ResponseWriter.SetHeader, ResponseWriter.fresh, StatusBadRequest,
      Event.isLog, Event.isRPC]

theorem createPreAuthKey_unreachable_backend_witness :
    (createPreAuthKey unreachableBackendEnv ResponseWriter.fresh
        { Method := "POST", Body := bodyOneHour }).w.status = some 500 ∧
      (createPreAuthKey unreachableBackendEnv ResponseWriter.fresh
        { Method := "POST", Body := bodyOneHour }).w.body
        = [Chunk.line "Failed to create preauth key"] ∧
      (createPreAuthKey unreachableBackendEnv ResponseWriter.fresh
        { Method := "POST", Body := bodyOneHour }).trace.filter Event.isLog
        = [Event.log ("Failed to create preauth key: "
            ++ "rpc error: code = Unavailable desc = connection error: dial unix /var/run/headscale/headscale.sock: connect: no such file or directory")] ∧
      (createPreAuthKey unreachableBackendEnv ResponseWriter.fresh
        { Method := "POST", Body := bodyOneHour }).trace.filter Event.isRPC
        = [Event.createPreAuthKey
            (buildRequest
              { User := "default", Reusable := false, Ephemeral := false, Tags := ["tag:ci"],
                Expiry := "1h" }
              unreachableBackendEnv.now 3600000000000)] :=
  (createPreAuthKey_unreachable_backend unreachableBackendEnv
    { Method := "POST", Body := bodyOneHour }
    { User := "default", Reusable := false, Ephemeral := false, Tags := ["tag:ci"],
      Expiry := "1h" }
    "rpc error: code = Unavailable desc = connection error: dial unix /var/run/headscale/headscale.sock: connect: no such file or directory"
    rfl rfl rfl (fun _ => rfl)).1 3600000000000 rfl

/-- With no daemon listening, a POST request whose body decodes does not get the
answer 500 "Failed to connect to headscale" with a log line and no RPC: for the
expiry "forever" the answer is 400 "Invalid expiry duration" and nothing is
logged; for the expiry "1h" the body is "Failed to create preauth key" and the
RPC has been issued. -/
theorem createPreAuthKey_unreachable_backend_counterexample :
    (createPreAuthKey unreachableBackendEnv ResponseWriter.fresh
        { Method := "POST", Body := bodyForever }).w.status = some 400 ∧
      (createPreAuthKey unreachableBackendEnv ResponseWriter.fresh
        { Method := "POST", Body := bodyForever }).w.body
        = [Chunk.line "Invalid expiry duration"] ∧
      (createPreAuthKey unreachableBackendEnv ResponseWriter.fresh
        { Method := "POST", Body := bodyForever }).trace
        = [Event.decodeBody, Event.dial "unix:///var/run/headscale/headscale.sock" true,
           Event.parseDuration "forever", Event.connClose] ∧
      (createPreAuthKey unreachableBackendEnv ResponseWriter.fresh
        { Method := "POST", Body := bodyOneHour }).w.body
        = [Chunk.line "Failed to create preauth key"] ∧
      (createPreAuthKey unreachableBackendEnv ResponseWriter.fresh
        { Method := "POST", Body := bodyOneHour }).trace.filter Event.isRPC
        = [Event.createPreAuthKey
            { User := "default", Reusable := false, Ephemeral := false, AclTags := ["tag:ci"],
              Expiration := { Seconds := 1700003600, Nanos := 123456789 } }] ∧
      ¬ ((createPreAuthKey unreachableBackendEnv ResponseWriter.fresh
            { Method := "POST", Body := bodyForever }).w.status = some 500 ∧
          (createPreAuthKey unreachableBackendEnv ResponseWriter.fresh
            { Method := "POST", Body := bodyForever }).w.body
            = [Chunk.line "Failed to connect to headscale"] ∧
          (createPreAuthKey unreachableBackendEnv ResponseWriter.fresh
            { Method := "POST", Body := bodyForever }).trace.filter Event.isLog ≠ [] ∧
          (createPreAuthKey unreachableBackendEnv ResponseWriter.fresh
            { Method := "POST", Body := bodyForever }).trace.filter Event.isRPC = []) := by
  refine ⟨rfl, rfl, rfl, rfl, rfl, ?_⟩
  intro h
  exact absurd h.1 (by decide)

/-- C10: on every run the connections opened and released balance. A connection
is opened exactly on the runs where the method is POST, the body decodes and the
dial succeeds (the exits with an unparseable expiry, a failed RPC and success);
there it is opened once, released once, and the release is the last thing the
handler does. On the other runs (wrong method, undecodable body, failed dial)
nothing is opened and nothing is released. -/
theorem createPreAuthKey_connection_released (env : Env) (r : Request) :
    connectionsHeld 0 (createPreAuthKey env ResponseWriter.fresh r).trace = 0 ∧
      (createPreAuthKey env ResponseWriter.fresh r).trace.countP Event.isOpen
        = (createPreAuthKey env ResponseWriter.fresh r).trace.count Event.connClose ∧
      (createPreAuthKey env ResponseWriter.fresh r).trace.countP Event.isOpen ≤ 1 ∧
      ((createPreAuthKey env ResponseWriter.fresh r).trace.countP Event.isOpen = 1 →
        (createPreAuthKey env ResponseWriter.fresh r).trace.getLast? = some Event.connClose) ∧
      ((r.Method = "POST" ∧ (∃ req, env.decode r.Body = Except.ok req) ∧
          env.dial ("unix://" ++ headscaleSocket) = Except.ok ()) ↔
        (createPreAuthKey env ResponseWriter.fresh r).trace.countP Event.isOpen = 1) := by
  by_cases hmethod : r.Method = "POST"
  · cases hdecode : env.decode r.Body with
    | error e =>
      simp [createPreAuthKey, MethodPost, hmethod, hdecode, connectionsHeld, Event.isOpen]
    | ok req =>
      cases hdial : env.dial ("unix://" ++ headscaleSocket) with
      | error e =>
        simp [createPreAuthKey, MethodPost, hmethod, hdecode, hdial, connectionsHeld,
          Event.isOpen]
      | ok u =>
        cases hparse : env.parseDuration req.Expiry with
        | error e =>
          simp [createPreAuthKey, withConnection, MethodPost, hmethod, hdecode, hdial, hparse,
            connectionsHeld, Event.isOpen]
        | ok d =>
          cases hrpc : env.createPreAuthKey (buildRequest req env.now d) <;>
            simp [createPreAuthKey, withConnection, MethodPost, hmethod, hdecode, hdial,
              hparse, hrpc, connectionsHeld, Event.isOpen]
  · simp [createPreAuthKey, MethodPost, hmethod, connectionsHeld, Event.isOpen]

theorem createPreAuthKey_connection_released_witness :
    connectionsHeld 0 (createPreAuthKey scenarioEnv ResponseWriter.fresh
        { Method := "POST", Body := bodyForever }).trace = 0 ∧
      (createPreAuthKey scenarioEnv ResponseWriter.fresh
        { Method := "POST", Body := bodyForever }).trace.getLast? = some Event.connClose :=
  ⟨(createPreAuthKey_connection_released scenarioEnv
      { Method := "POST", Body := bodyForever }).1,
   (createPreAuthKey_connection_released scenarioEnv
      { Method := "POST", Body := bodyForever }).2.2.2.1 (by decide)⟩

end Httpserver
